import Mathlib

/-!
# Verification of the WebMining scraping scripts

Shallow embedding of the extraction-and-aggregation pipeline of
`book_scraper.py`, `book_scraper2.py` and `durex_scraper.py`
(field normalization, record extraction, pagination control),
together with theorems settling the specification claims.
-/

namespace WebMining

/-! ## String helpers (models of the Python string methods used) -/

/-- Model of Python `str.strip()` on the character list: drop ASCII
whitespace from both ends (the scraped fragments never contain the more
exotic Unicode whitespace, so `Char.isWhitespace` is a faithful model). -/
def pyStripList (l : List Char) : List Char :=
  ((l.dropWhile Char.isWhitespace).reverse.dropWhile Char.isWhitespace).reverse

/-- Python `str.strip()` on strings. -/
def pyStrip (s : String) : String := ⟨pyStripList s.data⟩

/-- Model of Python `str.replace(c, '')`: remove every occurrence of `c`. -/
def stripCharList (c : Char) (l : List Char) : List Char := l.filter (· ≠ c)

/-- Python `str.replace(c, '')` on strings. -/
def stripChar (c : Char) (s : String) : String := ⟨stripCharList c s.data⟩

/-- Model of Python `str.startswith(pre)`. -/
def strStartsWith (s pre : String) : Bool := pre.data.isPrefixOf s.data

/-- Model of Python `str.lstrip('/')`: drop all leading slashes. -/
def lstripSlash (s : String) : String := ⟨s.data.dropWhile (· = '/')⟩

/-- `rstrip('/')` on a character list: drop all trailing slashes. -/
def rstripSlashList (l : List Char) : List Char :=
  (l.reverse.dropWhile (· = '/')).reverse

/-- Model of Python `str.rstrip('/')`: drop all trailing slashes. -/
def rstripSlash (s : String) : String := ⟨rstripSlashList s.data⟩

/-- Model of Python slicing `s[:n]`. -/
def strTake (s : String) (n : Nat) : String := ⟨s.data.take n⟩

/-! ## Decimal parsing (model of Python `float()`)

The scrapers feed `float()` plain decimal literals such as `"51.77"`.
We model `float()` on exactly that fragment: optional surrounding
whitespace, an optional sign, an integer part and an optional fractional
part, at least one digit overall.  Exponents, `inf`/`nan` and underscore
separators never occur in this pipeline and are not modelled. -/

/-- Numeric value of a digit string (most significant first). -/
def digitsToNat (l : List Char) : Nat :=
  l.foldl (fun a c => a * 10 + (c.toNat - '0'.toNat)) 0

/-- Parse an unsigned decimal literal: digits, optionally followed by
`'.'` and more digits; at least one digit overall. -/
def parseFloatCore (l : List Char) : Option Rat :=
  let ip := l.takeWhile Char.isDigit
  let rest := l.dropWhile Char.isDigit
  if rest.isEmpty then
    if ip.isEmpty then none else some (digitsToNat ip : Rat)
  else if rest.head? = some '.' && rest.tail.all Char.isDigit &&
      (!ip.isEmpty || !rest.tail.isEmpty) then
    some ((digitsToNat ip : Rat) + (digitsToNat rest.tail : Rat) / (10 : Rat) ^ rest.tail.length)
  else none

/-- `parseFloat` on the character list: strip whitespace, handle an
optional sign, then parse the unsigned part. -/
def parseFloatList (l : List Char) : Option Rat :=
  let m := pyStripList l
  if m.head? = some '-' then (parseFloatCore m.tail).map (fun q => -q)
  else if m.head? = some '+' then parseFloatCore m.tail
  else parseFloatCore m

/-- Model of Python `float(s)` on plain decimal literals; `none` models a
raised `ValueError`. -/
def parseFloat (s : String) : Option Rat := parseFloatList s.data

/-- Price normalization of `book_scraper.py` line 66:
`float(price_text.replace('£', ''))` applied to the stripped element text;
`none` models the `ValueError` raised on a non-numeric remainder. -/
def normPrice1 (raw : String) : Option Rat :=
  parseFloat (stripChar '£' (pyStrip raw))

/-- Price normalization of `book_scraper2.py` lines 56-57:
`price_text.replace("Â", "").replace("£", "").strip()` then `float`;
`none` models the `ValueError` raised on a non-numeric remainder. -/
def normPrice2 (raw : String) : Option Rat :=
  parseFloat (pyStrip (stripChar '£' (stripChar 'Â' (pyStrip raw))))

/-! ## Rating normalization (`rating_map` of both book scrapers) -/

/-- The `rating_map` dictionary lookup with default 0:
`rating_map.get(w, 0)`. -/
def ratingWord (w : String) : Nat :=
  if w = "One" then 1
  else if w = "Two" then 2
  else if w = "Three" then 3
  else if w = "Four" then 4
  else if w = "Five" then 5
  else 0

/-- `rating_map.get(rating_text, 0)` where `rating_text` may be `None`. -/
def ratingOfOpt : Option String → Nat
  | none => 0
  | some w => ratingWord w

/-- `rating_class[1] if len(rating_class) > 1 else None`, then the map
lookup (book scrapers, rating extraction from the class list). -/
def ratingFromClasses (cls : List String) : Nat :=
  ratingOfOpt (if cls.length > 1 then cls[1]? else none)

/-- Rating of an optional rating element (absent element → 0). -/
def ratingOfElem : Option (List String) → Nat
  | none => 0
  | some cls => ratingFromClasses cls

/-! ## Book extraction (`scrape_books` of `book_scraper.py`)

A `BookNode` models the slice of the parse tree that `scrape_books`
queries on one `article.product_pod` container:
* `titleAnchor = none` models a container where `book.find('h3')` (or the
  chained `.find('a')`) yields `None`, so `.find('a')` / `.get(...)`
  raises `AttributeError`; `some attr` models a found anchor whose
  optional `title` attribute is `attr`.
* `priceText = none` models an absent `p.price_color` element; `some t`
  the stripped text of a present one.
* `ratingClasses = none` models an absent `p.star-rating` element;
  `some cls` the class list of a present one. -/

/-- Python exceptions that can escape one container's extraction. -/
inductive PyError where
  | attributeError
  | valueError
  deriving DecidableEq

structure BookNode where
  titleAnchor : Option (Option String)
  priceText : Option String
  ratingClasses : Option (List String)
  deriving DecidableEq

structure Book where
  title : String
  price : Rat
  rating : Nat
  deriving DecidableEq

instance {ε α : Type} [DecidableEq ε] [DecidableEq α] : DecidableEq (Except ε α)
  | .ok x, .ok y =>
    if h : x = y then .isTrue (congrArg Except.ok h)
    else .isFalse (fun hc => h (Except.ok.inj hc))
  | .error x, .error y =>
    if h : x = y then .isTrue (congrArg Except.error h)
    else .isFalse (fun hc => h (Except.error.inj hc))
  | .ok _, .error _ => .isFalse (fun hc => Except.noConfusion hc)
  | .error _, .ok _ => .isFalse (fun hc => Except.noConfusion hc)

/-- Extraction of one book container, `book_scraper.py` lines 56-84.
`Except.error` models an uncaught Python exception (only
`requests.exceptions.RequestException` is caught by the surrounding
`try`, so `AttributeError` and `ValueError` escape `scrape_books`). -/
def extractBook (b : BookNode) : Except PyError Book :=
  match b.titleAnchor with
  | none => .error .attributeError
  | some attr =>
    let title := attr.getD "N/A"
    match b.priceText with
    | some t =>
      match normPrice1 t with
      | some price => .ok ⟨title, price, ratingOfElem b.ratingClasses⟩
      | none => .error .valueError
    | none => .ok ⟨title, 0, ratingOfElem b.ratingClasses⟩

/-- Outcome of fetching and parsing one page: either the list of
`article.product_pod` containers found on it, or a
`requests.exceptions.RequestException` (timeout, connection error, or the
`raise_for_status` HTTP error). -/
inductive FetchOutcome where
  | success : List BookNode → FetchOutcome
  | requestError : FetchOutcome
  deriving DecidableEq

/-- Why the pagination loop stopped (the spec's `stopped_reason`). -/
inductive StopReason where
  | maxPages
  | emptyPage
  | fetchError
  deriving DecidableEq

structure SessionResult where
  books : List Book
  pagesVisited : Nat
  reason : StopReason
  deriving DecidableEq

/-- The pagination loop of `scrape_books`, lines 34-92.  `page` is the
current page index, the second argument the number of loop iterations
left (`max_pages - page + 1`), `acc` the books collected so far and
`visited` the number of pages fetched so far.  A `requests` failure or an
empty container list `break`s the loop; an extraction exception
propagates out of the whole function (`Except.error`). -/
def scrapeBooksAux (fetch : Nat → FetchOutcome) :
    Nat → Nat → List Book → Nat → Except PyError SessionResult
  | _, 0, acc, visited => .ok ⟨acc, visited, .maxPages⟩
  | page, r + 1, acc, visited =>
    match fetch page with
    | .requestError => .ok ⟨acc, visited + 1, .fetchError⟩
    | .success containers =>
      if containers.isEmpty then .ok ⟨acc, visited + 1, .emptyPage⟩
      else
        match containers.mapM extractBook with
        | .error e => .error e
        | .ok bs => scrapeBooksAux fetch (page + 1) r (acc ++ bs) (visited + 1)

/-- `scrape_books(url, max_pages)`, with the fetch-and-parse of each page
index abstracted as the oracle `fetch`. -/
def scrapeBooks (fetch : Nat → FetchOutcome) (maxPages : Nat) :
    Except PyError SessionResult :=
  scrapeBooksAux fetch 1 maxPages [] 0

/-! ## Product extraction (`scrape_products` of `durex_scraper.py`)

A `ProductNode` models the queries `scrape_products` makes on one
product element: each field is `none` when the corresponding
`element.find(...)` returns `None`, and otherwise holds the text (or
`href`) of the found node. -/

structure ProductNode where
  titleByKeyword : Option String
  titleAnyHeading : Option String
  descText : Option String
  linkHref : Option String
  categoryText : Option String
  deriving DecidableEq

structure Product where
  title : String
  description : String
  category : String
  link : String
  deriving DecidableEq

/-- The link-joining logic shared by `scrape_products` lines 81-82 and
`scrape_page_content` lines 156-157: an href starting with `"http"` is
kept, anything else becomes `base.rstrip('/') + '/' + href.lstrip('/')`. -/
def resolveLink (href base : String) : String :=
  if strStartsWith href "http" then href
  else rstripSlash base ++ "/" ++ lstripSlash href

/-- Title of a product element, lines 64-70: keyword-matched heading,
else any heading, else `'N/A'`. -/
def productTitle (e : ProductNode) : String :=
  (e.titleByKeyword.orElse (fun _ => e.titleAnyHeading)).getD "N/A"

/-- Description of a product element, lines 73-76. -/
def productDesc (e : ProductNode) : String :=
  e.descText.getD "N/A"

/-- Link of a product element, lines 79-82: `'N/A'` when no `<a href>`
exists; otherwise joined onto the base unless it starts with `"http"`
(the `link != 'N/A'` guard also skips a literal `"N/A"` href). -/
def productLink (base : String) : Option String → String
  | none => "N/A"
  | some href => if href = "N/A" then href else resolveLink href base

/-- Extraction of one product element, lines 62-94; `none` models the
emission guard `if title != 'N/A' or description != 'N/A'` rejecting the
element. -/
def extractProduct (base : String) (e : ProductNode) : Option Product :=
  let title := productTitle e
  let description := productDesc e
  let link := productLink base e.linkHref
  let category := e.categoryText.getD "N/A"
  if title ≠ "N/A" ∨ description ≠ "N/A" then
    some ⟨title, if description ≠ "N/A" then strTake description 200 else "N/A",
      category, link⟩
  else none

/-- `scrape_products(base_url)`: `none` models a failed
`get_page_content` (returns `[]`, lines 50-52); otherwise every product
element is processed in order and the guard decides emission. -/
def scrapeProducts (base : String) : Option (List ProductNode) → List Product
  | none => []
  | some es => es.filterMap (extractProduct base)

/-- The link filter of `scrape_page_content` line 155:
`if text and href and not href.startswith('#')`. -/
def includeLink (text href : String) : Bool :=
  text ≠ "" && href ≠ "" && !(strStartsWith href "#")

/-! ## Helper lemmas on `dropWhile`, `takeWhile` and the slash-trimming -/

theorem dropWhile_eq_self_of_all {α : Type} (p : α → Bool) (l : List α)
    (h : ∀ c ∈ l, p c = false) : l.dropWhile p = l := by
  cases l with
  | nil => rfl
  | cons a t => rw [List.dropWhile_cons, h a (List.mem_cons_self a t)]; simp

theorem dropWhile_head_not {α : Type} (p : α → Bool) :
    ∀ (l : List α) (a : α), (l.dropWhile p).head? = some a → p a = false := by
  intro l
  induction l with
  | nil => intro a h; simp at h
  | cons c t ih =>
    intro a h
    rw [List.dropWhile_cons] at h
    by_cases hc : p c = true
    · rw [if_pos hc] at h; exact ih a h
    · rw [if_neg hc] at h
      simp only [List.head?_cons, Option.some.injEq] at h
      subst h
      exact Bool.eq_false_iff.mpr hc

theorem dropWhile_append_neg {α : Type} (p : α → Bool) (c : α) (hc : p c = false)
    (u v : List α) : (u ++ c :: v).dropWhile p = u.dropWhile p ++ c :: v := by
  induction u with
  | nil => simp [List.dropWhile_cons, hc]
  | cons a u ih =>
    by_cases ha : p a = true
    · simp only [List.cons_append, List.dropWhile_cons, ha, if_true, ih]
    · rw [List.cons_append, List.dropWhile_cons, List.dropWhile_cons,
        if_neg ha, if_neg ha]
      rfl

theorem dropWhile_eq_nil_of_all {α : Type} (p : α → Bool) (u : List α)
    (h : ∀ a ∈ u, p a = true) : u.dropWhile p = [] := by
  induction u with
  | nil => rfl
  | cons a u ih =>
    rw [List.dropWhile_cons, if_pos (h a (List.mem_cons_self a u))]
    exact ih (fun b hb => h b (List.mem_cons_of_mem a hb))

theorem takeWhile_append_of_all {α : Type} (p : α → Bool) (c : α) (hc : p c = false)
    (u v : List α) (hu : ∀ a ∈ u, p a = true) : (u ++ c :: v).takeWhile p = u := by
  induction u with
  | nil => simp [List.takeWhile_cons, hc]
  | cons a u ih =>
    rw [List.cons_append, List.takeWhile_cons,
      if_pos (hu a (List.mem_cons_self a u))]
    rw [ih (fun b hb => hu b (List.mem_cons_of_mem a hb))]

theorem rstripSlashList_append (q t : List Char) (c : Char) (hc : ¬(c = '/')) :
    rstripSlashList (q ++ c :: t) = q ++ c :: rstripSlashList t := by
  unfold rstripSlashList
  rw [List.reverse_append, List.reverse_cons, List.append_assoc, List.singleton_append,
    dropWhile_append_neg _ c (by simp [hc]) t.reverse q.reverse]
  rw [List.reverse_append, List.reverse_cons]
  simp

theorem strStartsWith_http_elim {b : String} (h : strStartsWith b "http" = true) :
    ∃ t, b.data = 'h' :: 't' :: 't' :: 'p' :: t := by
  unfold strStartsWith at h
  rw [List.isPrefixOf_iff_prefix] at h
  obtain ⟨t, ht⟩ := h
  exact ⟨t, ht.symm⟩

theorem rstrip_keeps_http {b : String} (h : strStartsWith b "http" = true) :
    strStartsWith (rstripSlash b) "http" = true := by
  obtain ⟨t, ht⟩ := strStartsWith_http_elim h
  unfold strStartsWith rstripSlash
  rw [List.isPrefixOf_iff_prefix]
  show ("http".data) <+: rstripSlashList b.data
  rw [ht]
  have : 'h' :: 't' :: 't' :: 'p' :: t = ['h', 't', 't'] ++ 'p' :: t := rfl
  rw [this, rstripSlashList_append ['h', 't', 't'] t 'p' (by decide)]
  exact List.prefix_append _ _

theorem resolveLink_of_http {href base : String}
    (h : strStartsWith href "http" = true) : resolveLink href base = href := by
  simp [resolveLink, h]

theorem resolveLink_of_not_http {href base : String}
    (h : strStartsWith href "http" = false) :
    resolveLink href base = rstripSlash base ++ "/" ++ lstripSlash href := by
  simp [resolveLink, h]

theorem resolveLink_startsWith_http {x b : String}
    (hb : strStartsWith b "http" = true) (hx : strStartsWith x "http" = false) :
    strStartsWith (resolveLink x b) "http" = true := by
  rw [resolveLink_of_not_http hx]
  obtain ⟨t, ht⟩ := strStartsWith_http_elim (rstrip_keeps_http hb)
  unfold strStartsWith
  rw [List.isPrefixOf_iff_prefix]
  show ("http".data) <+: (rstripSlash b ++ "/" ++ lstripSlash x).data
  rw [String.data_append, String.data_append, ht]
  exact List.prefix_append _ _

/-! ## Claim C6: the rating vocabulary -/

/-- C6: rating normalization maps exactly the five ordinal words
One..Five to 1..5 by case-sensitive exact match; every other token,
an absent token, and a rating element whose class list has fewer than
two entries all map to 0. -/
theorem rating_vocabulary_exact :
    ratingWord "One" = 1 ∧ ratingWord "Two" = 2 ∧ ratingWord "Three" = 3 ∧
    ratingWord "Four" = 4 ∧ ratingWord "Five" = 5 ∧
    (∀ w : String, w ≠ "One" → w ≠ "Two" → w ≠ "Three" → w ≠ "Four" →
      w ≠ "Five" → ratingWord w = 0) ∧
    ratingOfOpt none = 0 ∧ ratingOfElem none = 0 ∧
    (∀ cls : List String, cls.length < 2 → ratingOfElem (some cls) = 0) := by
  refine ⟨rfl, rfl, rfl, rfl, rfl, ?_, rfl, rfl, ?_⟩
  · intro w h1 h2 h3 h4 h5
    simp [ratingWord, h1, h2, h3, h4, h5]
  · intro cls hlen
    show ratingOfOpt (if cls.length > 1 then cls[1]? else none) = 0
    rw [if_neg (by omega)]
    rfl

/-- Witness for C6: the lowercase token `"one"` and a one-entry class
list both normalize to 0. -/
theorem rating_vocabulary_exact_witness :
    ratingWord "one" = 0 ∧ ratingOfElem (some ["star-rating"]) = 0 :=
  ⟨rating_vocabulary_exact.2.2.2.2.2.1 "one" (by decide) (by decide) (by decide)
      (by decide) (by decide),
   rating_vocabulary_exact.2.2.2.2.2.2.2.2 ["star-rating"] (by decide)⟩

/-! ## Claim C10: absoluteness decided by the four-character prefix test -/

/-- C10: link resolution returns any href beginning with the four
characters `"http"` (even `"httpfoo"`) unchanged, and concatenates every
other href — including other schemes such as `ftp://` — onto the base. -/
theorem link_http_prefix_test :
    (∀ href base : String, strStartsWith href "http" = true →
      resolveLink href base = href) ∧
    (∀ href base : String, strStartsWith href "http" = false →
      resolveLink href base = rstripSlash base ++ "/" ++ lstripSlash href) ∧
    strStartsWith "httpfoo" "http" = true ∧
    resolveLink "httpfoo" "https://www.durex.co.uk" = "httpfoo" ∧
    resolveLink "ftp://host/x" "https://www.durex.co.uk"
      = "https://www.durex.co.uk/ftp://host/x" :=
  ⟨fun _ _ h => resolveLink_of_http h,
   fun _ _ h => resolveLink_of_not_http h,
   by decide, by decide, by decide⟩

/-- Witness for C10 at concrete hrefs. -/
theorem link_http_prefix_test_witness :
    resolveLink "http://a/b" "x" = "http://a/b" ∧
    resolveLink "y" "x" = rstripSlash "x" ++ "/" ++ lstripSlash "y" :=
  ⟨link_http_prefix_test.1 "http://a/b" "x" (by decide),
   link_http_prefix_test.2.1 "y" "x" (by decide)⟩

/-! ## Claim C7: link resolution (corrected) -/

/-- Counterexample to C7: the href `"ftp://example.org/f"` already has a
scheme, yet it is not returned unchanged — it is concatenated onto the
base URL. -/
theorem link_scheme_counterexample :
    resolveLink "ftp://example.org/f" "https://www.durex.co.uk"
      = "https://www.durex.co.uk/ftp://example.org/f" ∧
    resolveLink "ftp://example.org/f" "https://www.durex.co.uk"
      ≠ "ftp://example.org/f" :=
  ⟨by decide, by decide⟩

/-- C7 (amended): an href beginning with `"http"` is returned unchanged;
every other href (including ones with another scheme) is joined onto the
base with exactly one slash at the junction; an href beginning with `'#'`
is excluded from resolution in the page-content scraper, but the product
scraper does not exclude it and joins it onto the base. -/
theorem link_resolution_amended :
    (∀ href base : String, strStartsWith href "http" = true →
      resolveLink href base = href) ∧
    (∀ href base : String, strStartsWith href "http" = false →
      resolveLink href base = rstripSlash base ++ "/" ++ lstripSlash href ∧
      (rstripSlash base).data.getLast? ≠ some '/' ∧
      (lstripSlash href).data.head? ≠ some '/') ∧
    (∀ text href : String, strStartsWith href "#" = true →
      includeLink text href = false) ∧
    productLink "https://www.durex.co.uk" (some "#top")
      = "https://www.durex.co.uk/#top" := by
  refine ⟨fun _ _ h => resolveLink_of_http h, ?_, ?_, by decide⟩
  · intro href base h
    refine ⟨resolveLink_of_not_http h, ?_, ?_⟩
    · intro hcontra
      show False
      have : (rstripSlash base).data = rstripSlashList base.data := rfl
      rw [this] at hcontra
      unfold rstripSlashList at hcontra
      rw [List.getLast?_reverse] at hcontra
      have := dropWhile_head_not (fun a => decide (a = '/')) _ _ hcontra
      simp at this
    · intro hcontra
      have : (lstripSlash href).data = href.data.dropWhile (· = '/') := rfl
      rw [this] at hcontra
      have := dropWhile_head_not (fun a => decide (a = '/')) _ _ hcontra
      simp at this
  · intro text href h
    simp [includeLink, h]

/-- Witness for C7 (amended) at a concrete relative href and an anchor. -/
theorem link_resolution_amended_witness :
    resolveLink "/sub/page" "https://www.durex.co.uk/"
      = rstripSlash "https://www.durex.co.uk/" ++ "/" ++ lstripSlash "/sub/page" ∧
    includeLink "Home" "#main" = false :=
  ⟨(link_resolution_amended.2.1 "/sub/page" "https://www.durex.co.uk/" (by decide)).1,
   link_resolution_amended.2.2.1 "Home" "#main" (by decide)⟩

/-! ## Claim C9: idempotence of link resolution (corrected) -/

/-- Counterexample to C9: with base URL `"ftp:"` and href `"a"`,
re-resolving the resolved link prepends the base a second time. -/
theorem resolve_idempotence_counterexample :
    resolveLink "a" "ftp:" = "ftp:/a" ∧
    resolveLink (resolveLink "a" "ftp:") "ftp:" = "ftp:/ftp:/a" ∧
    resolveLink (resolveLink "a" "ftp:") "ftp:" ≠ resolveLink "a" "ftp:" :=
  ⟨by decide, by decide, by decide⟩

/-- C9 (amended): link resolution is idempotent for every href whenever
the base URL itself begins with `"http"` (as the program's base URLs do). -/
theorem resolve_idempotent_on_http_base (x b : String)
    (hb : strStartsWith b "http" = true) :
    resolveLink (resolveLink x b) b = resolveLink x b := by
  cases hx : strStartsWith x "http" with
  | true => rw [resolveLink_of_http hx, resolveLink_of_http hx]
  | false => exact resolveLink_of_http (resolveLink_startsWith_http hb hx)

/-- Witness for C9 (amended) at a concrete relative href and the durex
base URL. -/
theorem resolve_idempotent_on_http_base_witness :
    resolveLink (resolveLink "products/abc" "https://www.durex.co.uk")
        "https://www.durex.co.uk"
      = resolveLink "products/abc" "https://www.durex.co.uk" :=
  resolve_idempotent_on_http_base "products/abc" "https://www.durex.co.uk" (by decide)

/-! ## Unfolding lemmas for the pagination loop -/

theorem scrapeBooksAux_zero (fetch : Nat → FetchOutcome) (page : Nat)
    (acc : List Book) (v : Nat) :
    scrapeBooksAux fetch page 0 acc v = .ok ⟨acc, v, .maxPages⟩ := rfl

theorem scrapeBooksAux_succ (fetch : Nat → FetchOutcome) (page r : Nat)
    (acc : List Book) (v : Nat) :
    scrapeBooksAux fetch page (r + 1) acc v =
      match fetch page with
      | .requestError => .ok ⟨acc, v + 1, .fetchError⟩
      | .success containers =>
        if containers.isEmpty then .ok ⟨acc, v + 1, .emptyPage⟩
        else
          match containers.mapM extractBook with
          | .error e => .error e
          | .ok bs => scrapeBooksAux fetch (page + 1) r (acc ++ bs) (v + 1) := rfl

theorem scrapeBooksAux_err {fetch : Nat → FetchOutcome} {page : Nat}
    (r : Nat) (acc : List Book) (v : Nat) (hf : fetch page = .requestError) :
    scrapeBooksAux fetch page (r + 1) acc v = .ok ⟨acc, v + 1, .fetchError⟩ := by
  rw [scrapeBooksAux_succ, hf]

theorem scrapeBooksAux_empty {fetch : Nat → FetchOutcome} {page : Nat}
    (r : Nat) (acc : List Book) (v : Nat) (hf : fetch page = .success []) :
    scrapeBooksAux fetch page (r + 1) acc v = .ok ⟨acc, v + 1, .emptyPage⟩ := by
  rw [scrapeBooksAux_succ, hf]
  rfl

theorem scrapeBooksAux_step {fetch : Nat → FetchOutcome} {page : Nat}
    {cs : List BookNode} {bs : List Book}
    (r : Nat) (acc : List Book) (v : Nat) (hf : fetch page = .success cs)
    (hne : cs ≠ []) (hm : cs.mapM extractBook = .ok bs) :
    scrapeBooksAux fetch page (r + 1) acc v
      = scrapeBooksAux fetch (page + 1) r (acc ++ bs) (v + 1) := by
  rw [scrapeBooksAux_succ, hf]
  show (if cs.isEmpty then _ else _) = _
  rw [if_neg (fun hemp => hne (List.isEmpty_iff.mp hemp)), hm]

theorem scrapeBooksAux_abort {fetch : Nat → FetchOutcome} {page : Nat}
    {cs : List BookNode} {e : PyError}
    (r : Nat) (acc : List Book) (v : Nat) (hf : fetch page = .success cs)
    (hne : cs ≠ []) (hm : cs.mapM extractBook = .error e) :
    scrapeBooksAux fetch page (r + 1) acc v = .error e := by
  rw [scrapeBooksAux_succ, hf]
  show (if cs.isEmpty then _ else _) = _
  rw [if_neg (fun hemp => hne (List.isEmpty_iff.mp hemp)), hm]

/-! ## Claim C3: the maximum page bound -/

theorem scrapeBooksAux_visited_le (fetch : Nat → FetchOutcome) :
    ∀ (r page : Nat) (acc : List Book) (v : Nat) (res : SessionResult),
      scrapeBooksAux fetch page r acc v = .ok res → res.pagesVisited ≤ v + r := by
  intro r
  induction r with
  | zero =>
    intro page acc v res h
    rw [scrapeBooksAux_zero] at h
    rw [← Except.ok.inj h]
    show v ≤ v + 0
    omega
  | succ r ih =>
    intro page acc v res h
    cases hf : fetch page with
    | requestError =>
      rw [scrapeBooksAux_err r acc v hf] at h
      rw [← Except.ok.inj h]
      show v + 1 ≤ v + (r + 1)
      omega
    | success containers =>
      by_cases hne : containers = []
      · subst hne
        rw [scrapeBooksAux_empty r acc v hf] at h
        rw [← Except.ok.inj h]
        show v + 1 ≤ v + (r + 1)
        omega
      · cases hm : containers.mapM extractBook with
        | error e =>
          rw [scrapeBooksAux_abort r acc v hf hne hm] at h
          exact absurd h (by simp)
        | ok bs =>
          rw [scrapeBooksAux_step r acc v hf hne hm] at h
          have := ih (page + 1) (acc ++ bs) (v + 1) res h
          omega

theorem scrapeBooksAux_congr (fetch fetch' : Nat → FetchOutcome) :
    ∀ (r page : Nat) (acc : List Book) (v : Nat),
      (∀ p, page ≤ p → p < page + r → fetch p = fetch' p) →
      scrapeBooksAux fetch page r acc v = scrapeBooksAux fetch' page r acc v := by
  intro r
  induction r with
  | zero => intro page acc v _; rfl
  | succ r ih =>
    intro page acc v h
    have hp : fetch' page = fetch page := (h page le_rfl (by omega)).symm
    cases hf : fetch page with
    | requestError =>
      rw [scrapeBooksAux_err r acc v hf, scrapeBooksAux_err r acc v (hp.trans hf)]
    | success containers =>
      have hf' : fetch' page = .success containers := hp.trans hf
      by_cases hne : containers = []
      · subst hne
        rw [scrapeBooksAux_empty r acc v hf, scrapeBooksAux_empty r acc v hf']
      · cases hm : containers.mapM extractBook with
        | error e =>
          rw [scrapeBooksAux_abort r acc v hf hne hm,
            scrapeBooksAux_abort r acc v hf' hne hm]
        | ok bs =>
          rw [scrapeBooksAux_step r acc v hf hne hm,
            scrapeBooksAux_step r acc v hf' hne hm]
          exact ih (page + 1) (acc ++ bs) (v + 1)
            (fun p h1 h2 => h p (by omega) (by omega))

/-- C3: (1) whenever the session returns normally, the number of pages
visited is at most `maxPages`; (2) the session result only depends on the
fetches of pages `1..maxPages`, so no page beyond the bound is ever
fetched; (3) with `maxPages = 1` and a non-empty, extractable first page
the session stops after visiting exactly one page. -/
theorem pagination_respects_max_pages :
    (∀ (fetch : Nat → FetchOutcome) (maxPages : Nat) (res : SessionResult),
      scrapeBooks fetch maxPages = .ok res → res.pagesVisited ≤ maxPages) ∧
    (∀ (fetch fetch' : Nat → FetchOutcome) (maxPages : Nat),
      (∀ p, 1 ≤ p → p ≤ maxPages → fetch p = fetch' p) →
      scrapeBooks fetch maxPages = scrapeBooks fetch' maxPages) ∧
    (∀ (fetch : Nat → FetchOutcome) (cs : List BookNode) (bs : List Book),
      fetch 1 = .success cs → cs ≠ [] → cs.mapM extractBook = .ok bs →
      scrapeBooks fetch 1 = .ok ⟨bs, 1, .maxPages⟩) := by
  refine ⟨?_, ?_, ?_⟩
  · intro fetch maxPages res h
    have := scrapeBooksAux_visited_le fetch maxPages 1 [] 0 res h
    omega
  · intro fetch fetch' maxPages h
    exact scrapeBooksAux_congr fetch fetch' maxPages 1 [] 0
      (fun p h1 h2 => h p h1 (by omega))
  · intro fetch cs bs hf hne hm
    show scrapeBooksAux fetch 1 1 [] 0 = .ok ⟨bs, 1, .maxPages⟩
    rw [scrapeBooksAux_step 0 [] 0 hf hne hm, scrapeBooksAux_zero, List.nil_append]

/-- A concrete container: an anchor with title `"B"`, no price element,
a `"One"` rating. -/
def sampleNode : BookNode := ⟨some (some "B"), none, some ["star-rating", "One"]⟩

/-- The record extracted from `sampleNode`. -/
def sampleBook : Book := ⟨"B", 0, 1⟩

/-- Witness for C3: one non-empty page with `maxPages = 1`. -/
theorem pagination_respects_max_pages_witness :
    scrapeBooks (fun _ => .success [sampleNode]) 1 = .ok ⟨[sampleBook], 1, .maxPages⟩ :=
  pagination_respects_max_pages.2.2 (fun _ => .success [sampleNode])
    [sampleNode] [sampleBook] rfl (by decide) (by decide)

/-! ## Claim C4: empty page terminates the session normally -/

/-- C4: a page with zero containers immediately ends the session with
reason `EmptyPage` and an empty record batch, both mid-session (first
conjunct: the accumulated records are returned unchanged and no further
page is processed) and for a session whose first page is empty. -/
theorem empty_page_terminates :
    (∀ (fetch : Nat → FetchOutcome) (page r : Nat) (acc : List Book) (v : Nat),
      fetch page = .success [] →
      scrapeBooksAux fetch page (r + 1) acc v = .ok ⟨acc, v + 1, .emptyPage⟩) ∧
    (∀ (fetch : Nat → FetchOutcome) (maxPages : Nat), 1 ≤ maxPages →
      fetch 1 = .success [] →
      scrapeBooks fetch maxPages = .ok ⟨[], 1, .emptyPage⟩) := by
  constructor
  · intro fetch page r acc v hf
    exact scrapeBooksAux_empty r acc v hf
  · intro fetch maxPages hmax hf
    cases maxPages with
    | zero => omega
    | succ m => exact scrapeBooksAux_empty m [] 0 hf

/-- Witness for C4: an always-empty site with `maxPages = 5`. -/
theorem empty_page_terminates_witness :
    scrapeBooks (fun _ => .success []) 5 = .ok ⟨[], 1, .emptyPage⟩ :=
  empty_page_terminates.2 (fun _ => .success []) 5 (by omega) rfl

/-! ## Claim C5: a fetch failure stops the session and keeps earlier records -/

/-- Concatenation of the per-page record batches `bs p, …, bs (p+n-1)`. -/
def segRecords (bs : Nat → List Book) : Nat → Nat → List Book
  | _, 0 => []
  | p, n + 1 => bs p ++ segRecords bs (p + 1) n

theorem scrapeBooksAux_fetch_error (fetch : Nat → FetchOutcome)
    (cs : Nat → List BookNode) (bs : Nat → List Book) :
    ∀ (n p r : Nat) (acc : List Book) (v : Nat), n < r →
      (∀ k, k < n → fetch (p + k) = .success (cs (p + k)) ∧ cs (p + k) ≠ [] ∧
        (cs (p + k)).mapM extractBook = .ok (bs (p + k))) →
      fetch (p + n) = .requestError →
      scrapeBooksAux fetch p r acc v
        = .ok ⟨acc ++ segRecords bs p n, v + n + 1, .fetchError⟩ := by
  intro n
  induction n with
  | zero =>
    intro p r acc v hr _ herr
    rw [Nat.add_zero] at herr
    cases r with
    | zero => omega
    | succ r =>
      rw [scrapeBooksAux_err r acc v herr]
      rw [show acc ++ segRecords bs p 0 = acc from List.append_nil acc]
  | succ n ih =>
    intro p r acc v hr hok herr
    obtain ⟨hf, hne, hm⟩ := hok 0 (by omega)
    rw [Nat.add_zero] at hf hne hm
    cases r with
    | zero => omega
    | succ r =>
      rw [scrapeBooksAux_step r acc v hf hne hm]
      have hok' : ∀ k, k < n → fetch (p + 1 + k) = .success (cs (p + 1 + k)) ∧
          cs (p + 1 + k) ≠ [] ∧
          (cs (p + 1 + k)).mapM extractBook = .ok (bs (p + 1 + k)) := by
        intro k hk
        have := hok (k + 1) (by omega)
        rwa [show p + (k + 1) = p + 1 + k by omega] at this
      have herr' : fetch (p + 1 + n) = .requestError := by
        rwa [show p + (n + 1) = p + 1 + n by omega] at herr
      rw [ih (p + 1) r (acc ++ bs p) (v + 1) (by omega) hok' herr']
      rw [show segRecords bs p (n + 1) = bs p ++ segRecords bs (p + 1) n from rfl]
      rw [List.append_assoc]
      rw [show v + 1 + n + 1 = v + (n + 1) + 1 by omega]

/-- C5: when the fetch of page `N = n+1` fails (a `RequestException`:
timeout, connection error, or HTTP status error) and pages `1..n`
fetched and extracted normally, the session returns cleanly (no
exception) at that page boundary with reason `FetchError` and exactly
the records collected from pages `1` through `n`. -/
theorem fetch_failure_preserves_records (fetch : Nat → FetchOutcome)
    (cs : Nat → List BookNode) (bs : Nat → List Book) (n maxPages : Nat)
    (hlt : n < maxPages)
    (hok : ∀ k, k < n → fetch (1 + k) = .success (cs (1 + k)) ∧ cs (1 + k) ≠ [] ∧
      (cs (1 + k)).mapM extractBook = .ok (bs (1 + k)))
    (herr : fetch (1 + n) = .requestError) :
    scrapeBooks fetch maxPages = .ok ⟨segRecords bs 1 n, n + 1, .fetchError⟩ := by
  show scrapeBooksAux fetch 1 maxPages [] 0 = _
  rw [scrapeBooksAux_fetch_error fetch cs bs n 1 maxPages [] 0 hlt hok herr]
  rw [List.nil_append, Nat.zero_add]

/-- Witness for C5: page 1 succeeds with one book, page 2 fails. -/
theorem fetch_failure_preserves_records_witness :
    scrapeBooks (fun p => if p = 1 then .success [sampleNode] else .requestError) 3
      = .ok ⟨segRecords (fun _ => [sampleBook]) 1 1, 2, .fetchError⟩ :=
  fetch_failure_preserves_records
    (fun p => if p = 1 then .success [sampleNode] else .requestError)
    (fun _ => [sampleNode]) (fun _ => [sampleBook]) 1 3 (by omega)
    (fun k hk => by
      have hk0 : k = 0 := by omega
      subst hk0
      exact ⟨by decide, by decide, by decide⟩)
    (by decide)

/-! ## Character and stripping lemmas for price normalization -/

theorem isDigit_not_ws {c : Char} (h : c.isDigit = true) : c.isWhitespace = false := by
  rcases eq_or_ne c ' ' with rfl | h1
  · exact absurd h (by decide)
  rcases eq_or_ne c '\t' with rfl | h2
  · exact absurd h (by decide)
  rcases eq_or_ne c '\r' with rfl | h3
  · exact absurd h (by decide)
  rcases eq_or_ne c '\n' with rfl | h4
  · exact absurd h (by decide)
  simp [Char.isWhitespace, h1, h2, h3, h4]

theorem isDigit_ne {c x : Char} (h : c.isDigit = true) (hx : x.isDigit = false) :
    c ≠ x :=
  fun hcx => absurd (hcx ▸ h) (by simp [hx])

theorem pyStripList_eq_self (l : List Char) (h : ∀ c ∈ l, c.isWhitespace = false) :
    pyStripList l = l := by
  unfold pyStripList
  rw [dropWhile_eq_self_of_all _ l h,
    dropWhile_eq_self_of_all _ l.reverse (fun c hc => h c (List.mem_reverse.mp hc))]
  exact List.reverse_reverse l

theorem stripCharList_eq_self (c : Char) (l : List Char) (h : ∀ a ∈ l, a ≠ c) :
    stripCharList c l = l := by
  unfold stripCharList
  rw [List.filter_eq_self]
  intro a ha
  simpa using h a ha

theorem stripCharList_cons_self (c : Char) (l : List Char) :
    stripCharList c (c :: l) = stripCharList c l := by
  simp [stripCharList]

theorem stripCharList_cons_ne (c a : Char) (l : List Char) (h : a ≠ c) :
    stripCharList c (a :: l) = a :: stripCharList c l := by
  simp [stripCharList, h]

/-! ## Parsing lemmas -/

theorem parseFloatCore_decimal (d₁ d₂ : List Char) (hne : d₁ ≠ [])
    (h₁ : d₁.all Char.isDigit = true) (h₂ : d₂.all Char.isDigit = true) :
    parseFloatCore (d₁ ++ '.' :: d₂)
      = some ((digitsToNat d₁ : Rat) + (digitsToNat d₂ : Rat) / (10 : Rat) ^ d₂.length) := by
  have htake : (d₁ ++ '.' :: d₂).takeWhile Char.isDigit = d₁ :=
    takeWhile_append_of_all _ '.' (by decide) d₁ d₂ (List.all_eq_true.mp h₁)
  have hdrop : (d₁ ++ '.' :: d₂).dropWhile Char.isDigit = '.' :: d₂ := by
    rw [dropWhile_append_neg _ '.' (by decide) d₁ d₂,
      dropWhile_eq_nil_of_all _ d₁ (List.all_eq_true.mp h₁), List.nil_append]
  simp only [parseFloatCore, htake, hdrop, List.isEmpty_cons, List.head?_cons,
    List.tail_cons, List.length_cons]
  rw [if_neg (by simp)]
  rw [if_pos (by simp [h₂, List.isEmpty_iff, hne])]

theorem parseFloatCore_bad_head (c : Char) (l : List Char)
    (hd : c.isDigit = false) (hdot : c ≠ '.') :
    parseFloatCore (c :: l) = none := by
  simp only [parseFloatCore, List.takeWhile_cons, List.dropWhile_cons, hd]
  simp [hdot]

theorem parseFloatList_no_sign (l : List Char)
    (hws : ∀ c ∈ l, c.isWhitespace = false)
    (hm : l.head? ≠ some '-') (hp : l.head? ≠ some '+') :
    parseFloatList l = parseFloatCore l := by
  simp only [parseFloatList, pyStripList_eq_self l hws]
  rw [if_neg hm, if_neg hp]

theorem mem_decimal_not_ws (d₁ d₂ : List Char)
    (h₁ : d₁.all Char.isDigit = true) (h₂ : d₂.all Char.isDigit = true) :
    ∀ c ∈ d₁ ++ '.' :: d₂, c.isWhitespace = false := by
  intro c hc
  rcases List.mem_append.mp hc with hc | hc
  · exact isDigit_not_ws (List.all_eq_true.mp h₁ c hc)
  rcases List.mem_cons.mp hc with rfl | hc
  · decide
  · exact isDigit_not_ws (List.all_eq_true.mp h₂ c hc)

theorem parseFloatList_decimal (d₁ d₂ : List Char) (hne : d₁ ≠ [])
    (h₁ : d₁.all Char.isDigit = true) (h₂ : d₂.all Char.isDigit = true) :
    parseFloatList (d₁ ++ '.' :: d₂)
      = some ((digitsToNat d₁ : Rat) + (digitsToNat d₂ : Rat) / (10 : Rat) ^ d₂.length) := by
  obtain ⟨c, d₁', rfl⟩ : ∃ c d₁', d₁ = c :: d₁' := by
    cases d₁ with
    | nil => exact absurd rfl hne
    | cons c d => exact ⟨c, d, rfl⟩
  have hcd : c.isDigit = true :=
    List.all_eq_true.mp h₁ c (List.mem_cons_self c d₁')
  rw [parseFloatList_no_sign _ (mem_decimal_not_ws _ d₂ h₁ h₂)
    (by simp [List.cons_append]; exact isDigit_ne hcd (by decide))
    (by simp [List.cons_append]; exact isDigit_ne hcd (by decide))]
  exact parseFloatCore_decimal _ d₂ hne h₁ h₂

/-! ## Claim C1: price normalization (corrected) -/

theorem mem_decimal_ne_pound (d₁ d₂ : List Char)
    (h₁ : d₁.all Char.isDigit = true) (h₂ : d₂.all Char.isDigit = true) :
    ∀ a ∈ d₁ ++ '.' :: d₂, a ≠ '£' := by
  intro a ha
  rcases List.mem_append.mp ha with ha | ha
  · exact isDigit_ne (List.all_eq_true.mp h₁ a ha) (by decide)
  rcases List.mem_cons.mp ha with rfl | ha
  · decide
  · exact isDigit_ne (List.all_eq_true.mp h₂ a ha) (by decide)

theorem mem_decimal_ne_artifact (d₁ d₂ : List Char)
    (h₁ : d₁.all Char.isDigit = true) (h₂ : d₂.all Char.isDigit = true) :
    ∀ a ∈ d₁ ++ '.' :: d₂, a ≠ 'Â' := by
  intro a ha
  rcases List.mem_append.mp ha with ha | ha
  · exact isDigit_ne (List.all_eq_true.mp h₁ a ha) (by decide)
  rcases List.mem_cons.mp ha with rfl | ha
  · decide
  · exact isDigit_ne (List.all_eq_true.mp h₂ a ha) (by decide)

theorem normPrice1_decimal (d₁ d₂ : List Char) (hne : d₁ ≠ [])
    (h₁ : d₁.all Char.isDigit = true) (h₂ : d₂.all Char.isDigit = true) :
    normPrice1 ⟨'£' :: (d₁ ++ '.' :: d₂)⟩
      = some ((digitsToNat d₁ : Rat) + (digitsToNat d₂ : Rat) / (10 : Rat) ^ d₂.length) := by
  show parseFloatList (stripCharList '£' (pyStripList ('£' :: (d₁ ++ '.' :: d₂)))) = _
  rw [pyStripList_eq_self _ (by
    intro c hc
    rcases List.mem_cons.mp hc with rfl | hc
    · decide
    · exact mem_decimal_not_ws d₁ d₂ h₁ h₂ c hc)]
  rw [stripCharList_cons_self,
    stripCharList_eq_self '£' _ (mem_decimal_ne_pound d₁ d₂ h₁ h₂)]
  exact parseFloatList_decimal d₁ d₂ hne h₁ h₂

theorem normPrice1_artifact (d₁ d₂ : List Char)
    (h₁ : d₁.all Char.isDigit = true) (h₂ : d₂.all Char.isDigit = true) :
    normPrice1 ⟨'Â' :: '£' :: (d₁ ++ '.' :: d₂)⟩ = none := by
  show parseFloatList (stripCharList '£' (pyStripList ('Â' :: '£' :: (d₁ ++ '.' :: d₂)))) = _
  rw [pyStripList_eq_self _ (by
    intro c hc
    rcases List.mem_cons.mp hc with rfl | hc
    · decide
    rcases List.mem_cons.mp hc with rfl | hc
    · decide
    · exact mem_decimal_not_ws d₁ d₂ h₁ h₂ c hc)]
  rw [stripCharList_cons_ne '£' 'Â' _ (by decide), stripCharList_cons_self,
    stripCharList_eq_self '£' _ (mem_decimal_ne_pound d₁ d₂ h₁ h₂)]
  rw [parseFloatList_no_sign _ (by
      intro c hc
      rcases List.mem_cons.mp hc with rfl | hc
      · decide
      · exact mem_decimal_not_ws d₁ d₂ h₁ h₂ c hc)
    (by simp) (by simp)]
  exact parseFloatCore_bad_head 'Â' _ (by decide) (by decide)

theorem normPrice2_artifact (d₁ d₂ : List Char) (hne : d₁ ≠ [])
    (h₁ : d₁.all Char.isDigit = true) (h₂ : d₂.all Char.isDigit = true) :
    normPrice2 ⟨'Â' :: '£' :: (d₁ ++ '.' :: d₂)⟩
      = some ((digitsToNat d₁ : Rat) + (digitsToNat d₂ : Rat) / (10 : Rat) ^ d₂.length) := by
  show parseFloatList (pyStripList (stripCharList '£' (stripCharList 'Â'
    (pyStripList ('Â' :: '£' :: (d₁ ++ '.' :: d₂)))))) = _
  rw [pyStripList_eq_self ('Â' :: '£' :: (d₁ ++ '.' :: d₂)) (by
    intro c hc
    rcases List.mem_cons.mp hc with rfl | hc
    · decide
    rcases List.mem_cons.mp hc with rfl | hc
    · decide
    · exact mem_decimal_not_ws d₁ d₂ h₁ h₂ c hc)]
  rw [stripCharList_cons_self, stripCharList_cons_ne 'Â' '£' _ (by decide),
    stripCharList_eq_self 'Â' _ (mem_decimal_ne_artifact d₁ d₂ h₁ h₂),
    stripCharList_cons_self,
    stripCharList_eq_self '£' _ (mem_decimal_ne_pound d₁ d₂ h₁ h₂)]
  rw [pyStripList_eq_self _ (mem_decimal_not_ws d₁ d₂ h₁ h₂)]
  exact parseFloatList_decimal d₁ d₂ hne h₁ h₂

/-- Counterexample to C1: `book_scraper.py` does not strip the
mis-decoded `'Â'` artifact, so a price text carrying it is not parsed;
the `float` call raises `ValueError` — it does not return a failure
indicator, and the caller does not substitute 0. -/
theorem price_normalization_counterexample :
    normPrice1 "Â£51.77" = none ∧
    extractBook ⟨some (some "T1"), some "Â£51.77", none⟩ = .error .valueError :=
  ⟨by decide, by decide⟩

/-- C1 (amended): `book_scraper.py` strips only the pound sign and
`book_scraper2.py` also strips the mis-decoded `'Â'` artifact; both trim
whitespace and parse the remainder as a (non-negative, for digit strings)
decimal.  A missing price element defaults to price 0, but a non-numeric
remainder raises a `ValueError` that propagates out of extraction — the
code never returns a failure indicator and never substitutes 0 for an
unparseable price text. -/
theorem price_normalization_amended :
    (∀ d₁ d₂ : List Char, d₁ ≠ [] → d₁.all Char.isDigit = true →
      d₂.all Char.isDigit = true →
      normPrice1 ⟨'£' :: (d₁ ++ '.' :: d₂)⟩
        = some ((digitsToNat d₁ : Rat) + (digitsToNat d₂ : Rat) / (10 : Rat) ^ d₂.length) ∧
      0 ≤ (digitsToNat d₁ : Rat) + (digitsToNat d₂ : Rat) / (10 : Rat) ^ d₂.length) ∧
    (∀ d₁ d₂ : List Char, d₁ ≠ [] → d₁.all Char.isDigit = true →
      d₂.all Char.isDigit = true →
      normPrice1 ⟨'Â' :: '£' :: (d₁ ++ '.' :: d₂)⟩ = none ∧
      normPrice2 ⟨'Â' :: '£' :: (d₁ ++ '.' :: d₂)⟩
        = some ((digitsToNat d₁ : Rat) + (digitsToNat d₂ : Rat) / (10 : Rat) ^ d₂.length)) ∧
    (∀ (attr : Option String) (t : String) (rc : Option (List String)),
      normPrice1 t = none →
      extractBook ⟨some attr, some t, rc⟩ = .error .valueError) ∧
    (∀ (attr : Option String) (rc : Option (List String)),
      extractBook ⟨some attr, none, rc⟩ = .ok ⟨attr.getD "N/A", 0, ratingOfElem rc⟩) := by
  refine ⟨?_, ?_, ?_, fun attr rc => rfl⟩
  · intro d₁ d₂ hne h₁ h₂
    refine ⟨normPrice1_decimal d₁ d₂ hne h₁ h₂, ?_⟩
    positivity
  · intro d₁ d₂ hne h₁ h₂
    exact ⟨normPrice1_artifact d₁ d₂ h₁ h₂, normPrice2_artifact d₁ d₂ hne h₁ h₂⟩
  · intro attr t rc h
    simp [extractBook, h]

/-- Witness for C1 (amended) on the concrete price string `£51.77`. -/
theorem price_normalization_amended_witness :
    normPrice1 ⟨'£' :: (['5', '1'] ++ '.' :: ['7', '7'])⟩
      = some ((digitsToNat ['5', '1'] : Rat)
          + (digitsToNat ['7', '7'] : Rat) / (10 : Rat) ^ (['7', '7'] : List Char).length) ∧
    extractBook ⟨some none, none, none⟩ = .ok ⟨"N/A", 0, 0⟩ :=
  ⟨(price_normalization_amended.1 ['5', '1'] ['7', '7'] (by decide) (by decide)
      (by decide)).1,
   price_normalization_amended.2.2.2 none none⟩

/-! ## Claim C2: single-field failures (corrected) -/

/-- A container with no `h3`/`a` title chain but a perfectly good price
element and rating. -/
def brokenTitleNode : BookNode := ⟨none, some "£10.00", some ["star-rating", "One"]⟩

/-- Counterexample to C2: in `book_scraper.py` a container whose title
anchor chain is missing raises `AttributeError`, which aborts the
remaining containers of the page (here `sampleNode` is never extracted)
and escapes the whole session. -/
theorem field_failure_aborts_counterexample :
    extractBook brokenTitleNode = .error .attributeError ∧
    scrapeBooks (fun _ => .success [brokenTitleNode, sampleNode]) 3
      = .error .attributeError :=
  ⟨by decide, by decide⟩

/-- C2 (amended): in the product scraper every single-field failure
degrades to its default and never aborts the remaining fields or the
remaining containers; in the book scraper a missing price element or a
missing rating element degrades to a default, but a missing title anchor
chain raises `AttributeError` and a present price element whose text is
non-numeric raises `ValueError` — these are exactly the extraction
failure modes, and they abort the page and the session. -/
theorem extraction_degradation_amended :
    (∀ (base : String) (es : List ProductNode) (e : ProductNode),
      scrapeProducts base (some (es ++ [e]))
        = scrapeProducts base (some es) ++ (extractProduct base e).toList) ∧
    (∀ e : ProductNode, e.titleByKeyword = none → e.titleAnyHeading = none →
      productTitle e = "N/A") ∧
    (∀ e : ProductNode, e.descText = none → productDesc e = "N/A") ∧
    (∀ base : String, productLink base none = "N/A") ∧
    (∀ b : BookNode, (∃ e, extractBook b = .error e) ↔
      (b.titleAnchor = none ∨ ∃ t, b.priceText = some t ∧ normPrice1 t = none)) := by
  refine ⟨?_, ?_, ?_, fun base => rfl, ?_⟩
  · intro base es e
    cases h : extractProduct base e with
    | none => simp [scrapeProducts, List.filterMap_append, List.filterMap_cons, h]
    | some p => simp [scrapeProducts, List.filterMap_append, List.filterMap_cons, h]
  · intro e h1 h2
    simp [productTitle, h1, h2, Option.orElse]
  · intro e h
    simp [productDesc, h]
  · intro b
    obtain ⟨ta, pt, rc⟩ := b
    cases ta with
    | none => simp [extractBook]
    | some attr =>
      cases pt with
      | none => simp [extractBook]
      | some t =>
        cases hn : normPrice1 t with
        | none => simp [extractBook, hn]
        | some q => simp [extractBook, hn]

/-- Witness for C2 (amended): a fully-empty product node degrades every
field to its default. -/
theorem extraction_degradation_amended_witness :
    productTitle ⟨none, none, none, none, none⟩ = "N/A" ∧
    productDesc ⟨none, none, none, none, none⟩ = "N/A" :=
  ⟨extraction_degradation_amended.2.1 ⟨none, none, none, none, none⟩ rfl rfl,
   extraction_degradation_amended.2.2.1 ⟨none, none, none, none, none⟩ rfl⟩

/-! ## Claim C8: the emission guard (corrected) -/

/-- A container whose anchor exists but carries no `title` attribute and
which has no price element. -/
def sentinelTitleNode : BookNode := ⟨some none, none, some ["star-rating", "Two"]⟩

/-- Counterexample to C8: the book scraper emits a record whose title is
the sentinel `"N/A"` and which has no description at all — the claim says
such a container produces no record. -/
theorem sentinel_record_emitted_counterexample :
    extractBook sentinelTitleNode = .ok ⟨"N/A", 0, 2⟩ ∧
    scrapeBooks (fun _ => .success [sentinelTitleNode]) 1
      = .ok ⟨[⟨"N/A", 0, 2⟩], 1, .maxPages⟩ :=
  ⟨by decide, by decide⟩

/-- C8 (amended): in the product scraper a record is emitted exactly when
its extracted title differs from the sentinel or a description is
present, and the emitted record carries the extracted (possibly sentinel)
title string; the book scraper, however, emits a record for every
container whose anchor chain exists — including a sentinel title with no
description. -/
theorem emission_guard_amended :
    (∀ (base : String) (e : ProductNode),
      (extractProduct base e).isSome = true ↔
        (productTitle e ≠ "N/A" ∨ productDesc e ≠ "N/A")) ∧
    (∀ (base : String) (e : ProductNode) (p : Product),
      extractProduct base e = some p → p.title = productTitle e) ∧
    (∀ (ta : Option String) (rc : Option (List String)),
      ∃ bk, extractBook ⟨some ta, none, rc⟩ = .ok bk ∧ bk.title = ta.getD "N/A") := by
  refine ⟨?_, ?_, fun ta rc => ⟨_, rfl, rfl⟩⟩
  · intro base e
    by_cases hcond : productTitle e ≠ "N/A" ∨ productDesc e ≠ "N/A"
    · simp only [extractProduct]
      rw [if_pos hcond]
      simp [hcond]
    · simp only [extractProduct]
      rw [if_neg hcond]
      simp [hcond]
  · intro base e p h
    simp only [extractProduct] at h
    by_cases hcond : productTitle e ≠ "N/A" ∨ productDesc e ≠ "N/A"
    · rw [if_pos hcond] at h
      rw [← Option.some.inj h]
    · rw [if_neg hcond] at h
      exact absurd h (by simp)

/-- Witness for C8 (amended): a titled product node is emitted with its
title, and an anchor with no title attribute still yields a book record. -/
theorem emission_guard_amended_witness :
    (Product.title ⟨"Gel", "N/A", "N/A", "N/A"⟩
        = productTitle ⟨some "Gel", none, none, none, none⟩) ∧
    ∃ bk, extractBook ⟨some none, none, none⟩ = .ok bk ∧
      bk.title = (none : Option String).getD "N/A" :=
  ⟨emission_guard_amended.2.1 "https://www.durex.co.uk"
      ⟨some "Gel", none, none, none, none⟩ ⟨"Gel", "N/A", "N/A", "N/A"⟩ (by decide),
   emission_guard_amended.2.2 none none⟩

end WebMining
